import Mathlib

/-!
Shallow embedding of the session-typed canvas actor layer of the
`maybevoid/servo` fork:

* `src/components/canvas/canvas_session.rs` — the canvas actor loop
  (`run_canvas_session`), the message handler (`handle_canvas_message`),
  the session factory (`run_create_canvas_session`), the client batching
  layer (`CanvasSession`), and the cross-actor image transfer
  (`draw_image_in_other`);
* `src/components/canvas_traits/canvas.rs` — the command payload types and
  their string conversions.

The raster surface (`CanvasData`, from `canvas_data.rs`, which is not among
the sources) is an external collaborator: it is embedded as a structure of
abstract operations over an arbitrary state type, exactly the operations
the actor code invokes.  Floating-point scalars are opaque to the embedded
code — it never computes with them, it only stores and forwards them, with
the single exception of the truncating casts to unsigned machine integers
(`as usize` in the DrawImage arm, `.to_u64()` in `draw_image_in_other`) —
so they are modelled by a wrapper around the cast's result.
-/

namespace Servo

/-- Opaque model of an `f32` scalar.  The embedded actor code never
computes with `f32` values; it only stores and forwards them, so any
carrier with decidable equality is faithful. -/
structure F32 where
  bits : Nat
deriving DecidableEq

/-- Opaque model of an `f64` scalar.  The embedded code performs no
arithmetic on `f64` values; the only operation it applies is the
truncating cast to an unsigned machine integer (`as usize` in the
`DrawImage` arm of `handle_canvas_message`, `.to_u64()` in
`draw_image_in_other`), modelled by the single field `toNat`. -/
structure F64 where
  toNat : Nat
deriving DecidableEq

/-- `euclid::default::Point2D`. -/
structure Point2D (α : Type) where
  x : α
  y : α
deriving DecidableEq

/-- `euclid::default::Size2D`. -/
structure Size2D (α : Type) where
  width : α
  height : α
deriving DecidableEq

/-- `euclid::default::Rect`. -/
structure Rect (α : Type) where
  origin : Point2D α
  size : Size2D α
deriving DecidableEq

/-- `euclid::default::Transform2D`. -/
structure Transform2D (α : Type) where
  m11 : α
  m12 : α
  m21 : α
  m22 : α
  m31 : α
  m32 : α
deriving DecidableEq

/-- The truncating cast `Size2D<f64>::to_u64()`. -/
def Size2D.to_u64 (s : Size2D F64) : Size2D Nat :=
  ⟨s.width.toNat, s.height.toNat⟩

/-- The truncating cast `Point2D<f64>::to_u64()`. -/
def Point2D.to_u64 (p : Point2D F64) : Point2D Nat :=
  ⟨p.x.toNat, p.y.toNat⟩

/-- The truncating cast `Rect<f64>::to_u64()`. -/
def Rect.to_u64 (r : Rect F64) : Rect Nat :=
  ⟨r.origin.to_u64, r.size.to_u64⟩

/-- `cssparser::RGBA` (external collaborator): four 8-bit components. -/
structure RGBA where
  red : Nat
  green : Nat
  blue : Nat
  alpha : Nat
deriving DecidableEq

/-- `canvas_traits::canvas::FillRule`. -/
inductive FillRule where
  | Nonzero
  | Evenodd
deriving DecidableEq

/-- `webrender_api::ImageKey` (external collaborator), opaque. -/
structure ImageKey where
  key : Nat
deriving DecidableEq

/-- `canvas_traits::canvas::CanvasImageData`. -/
structure CanvasImageData where
  image_key : ImageKey
deriving DecidableEq

/-- `canvas_traits::canvas::CanvasGradientStop`. -/
structure CanvasGradientStop where
  offset : F64
  color : RGBA
deriving DecidableEq

/-- `canvas_traits::canvas::LinearGradientStyle`. -/
structure LinearGradientStyle where
  x0 : F64
  y0 : F64
  x1 : F64
  y1 : F64
  stops : List CanvasGradientStop
deriving DecidableEq

/-- `canvas_traits::canvas::RadialGradientStyle`. -/
structure RadialGradientStyle where
  x0 : F64
  y0 : F64
  r0 : F64
  x1 : F64
  y1 : F64
  r1 : F64
  stops : List CanvasGradientStop
deriving DecidableEq

/-- `canvas_traits::canvas::SurfaceStyle`; `surface_data` is a byte
buffer, each entry one byte. -/
structure SurfaceStyle where
  surface_data : List Nat
  surface_size : Size2D Nat
  repeat_x : Bool
  repeat_y : Bool
deriving DecidableEq

/-- `canvas_traits::canvas::FillOrStrokeStyle`. -/
inductive FillOrStrokeStyle where
  | Color (c : RGBA)
  | LinearGradient (s : LinearGradientStyle)
  | RadialGradient (s : RadialGradientStyle)
  | Surface (s : SurfaceStyle)
deriving DecidableEq

/-- `canvas_traits::canvas::LineCapStyle`. -/
inductive LineCapStyle where
  | Butt
  | Round
  | Square
deriving DecidableEq

/-- `canvas_traits::canvas::LineJoinStyle`. -/
inductive LineJoinStyle where
  | Round
  | Bevel
  | Miter
deriving DecidableEq

/-- `canvas_traits::canvas::CompositionStyle`. -/
inductive CompositionStyle where
  | SrcIn
  | SrcOut
  | SrcOver
  | SrcAtop
  | DestIn
  | DestOut
  | DestOver
  | DestAtop
  | Copy
  | Lighter
  | Xor
  | Clear
deriving DecidableEq

/-- `CompositionStyle::to_str`. -/
def CompositionStyle.to_str : CompositionStyle → String
  | .SrcIn => "source-in"
  | .SrcOut => "source-out"
  | .SrcOver => "source-over"
  | .SrcAtop => "source-atop"
  | .DestIn => "destination-in"
  | .DestOut => "destination-out"
  | .DestOver => "destination-over"
  | .DestAtop => "destination-atop"
  | .Copy => "copy"
  | .Lighter => "lighter"
  | .Xor => "xor"
  | .Clear => "clear"

/-- `<CompositionStyle as FromStr>::from_str`; `Except Unit` models
`Result<CompositionStyle, ()>`. -/
def CompositionStyle.from_str (string : String) : Except Unit CompositionStyle :=
  if string = "source-in" then .ok .SrcIn
  else if string = "source-out" then .ok .SrcOut
  else if string = "source-over" then .ok .SrcOver
  else if string = "source-atop" then .ok .SrcAtop
  else if string = "destination-in" then .ok .DestIn
  else if string = "destination-out" then .ok .DestOut
  else if string = "destination-over" then .ok .DestOver
  else if string = "destination-atop" then .ok .DestAtop
  else if string = "copy" then .ok .Copy
  else if string = "lighter" then .ok .Lighter
  else if string = "xor" then .ok .Xor
  else if string = "clear" then .ok .Clear
  else .error ()

/-- The keyword set matched by `CompositionStyle::from_str`. -/
def CompositionStyle.keywords : List String :=
  ["source-in", "source-out", "source-over", "source-atop",
   "destination-in", "destination-out", "destination-over",
   "destination-atop", "copy", "lighter", "xor", "clear"]

/-- `canvas_traits::canvas::BlendingStyle`. -/
inductive BlendingStyle where
  | Multiply
  | Screen
  | Overlay
  | Darken
  | Lighten
  | ColorDodge
  | ColorBurn
  | HardLight
  | SoftLight
  | Difference
  | Exclusion
  | Hue
  | Saturation
  | Color
  | Luminosity
deriving DecidableEq

/-- `BlendingStyle::to_str`. -/
def BlendingStyle.to_str : BlendingStyle → String
  | .Multiply => "multiply"
  | .Screen => "screen"
  | .Overlay => "overlay"
  | .Darken => "darken"
  | .Lighten => "lighten"
  | .ColorDodge => "color-dodge"
  | .ColorBurn => "color-burn"
  | .HardLight => "hard-light"
  | .SoftLight => "soft-light"
  | .Difference => "difference"
  | .Exclusion => "exclusion"
  | .Hue => "hue"
  | .Saturation => "saturation"
  | .Color => "color"
  | .Luminosity => "luminosity"

/-- `<BlendingStyle as FromStr>::from_str`. -/
def BlendingStyle.from_str (string : String) : Except Unit BlendingStyle :=
  if string = "multiply" then .ok .Multiply
  else if string = "screen" then .ok .Screen
  else if string = "overlay" then .ok .Overlay
  else if string = "darken" then .ok .Darken
  else if string = "lighten" then .ok .Lighten
  else if string = "color-dodge" then .ok .ColorDodge
  else if string = "color-burn" then .ok .ColorBurn
  else if string = "hard-light" then .ok .HardLight
  else if string = "soft-light" then .ok .SoftLight
  else if string = "difference" then .ok .Difference
  else if string = "exclusion" then .ok .Exclusion
  else if string = "hue" then .ok .Hue
  else if string = "saturation" then .ok .Saturation
  else if string = "color" then .ok .Color
  else if string = "luminosity" then .ok .Luminosity
  else .error ()

/-- The keyword set matched by `BlendingStyle::from_str`. -/
def BlendingStyle.keywords : List String :=
  ["multiply", "screen", "overlay", "darken", "lighten", "color-dodge",
   "color-burn", "hard-light", "soft-light", "difference", "exclusion",
   "hue", "saturation", "color", "luminosity"]

/-- `canvas_traits::canvas::CompositionOrBlending`. -/
inductive CompositionOrBlending where
  | Composition (s : CompositionStyle)
  | Blending (s : BlendingStyle)
deriving DecidableEq

/-- `canvas_traits::canvas::TextAlign`. -/
inductive TextAlign where
  | Start
  | End
  | Left
  | Right
  | Center
deriving DecidableEq

/-- `canvas_traits::canvas::TextBaseline`. -/
inductive TextBaseline where
  | Top
  | Hanging
  | Middle
  | Alphabetic
  | Ideographic
  | Bottom
deriving DecidableEq

/-- `style::properties::style_structs::Font` (external collaborator),
opaque to the actor code. -/
structure FontStyleStruct where
  id : Nat
deriving DecidableEq

/-- `canvas_session::CanvasMessage`: one serialized drawing instruction.
Byte buffers (`ByteBuf`) are lists of bytes. -/
inductive CanvasMessage where
  | Arc (center : Point2D F32) (radius start_angle end_angle : F32) (ccw : Bool)
  | ArcTo (cp1 cp2 : Point2D F32) (radius : F32)
  | DrawImage (imagedata : Option (List Nat)) (image_size : Size2D F64)
      (dest_rect source_rect : Rect F64) (smoothing_enabled : Bool)
  | BeginPath
  | BezierCurveTo (cp1 cp2 pt : Point2D F32)
  | ClearRect (rect : Rect F32)
  | Clip
  | ClosePath
  | Ellipse (center : Point2D F32) (radius_x radius_y rotation start_angle end_angle : F32)
      (ccw : Bool)
  | Fill (style : FillOrStrokeStyle)
  | FillText (text : String) (x y : F64) (max_width : Option F64)
      (style : FillOrStrokeStyle) (is_rtl : Bool)
  | FillRect (rect : Rect F32) (style : FillOrStrokeStyle)
  | LineTo (pt : Point2D F32)
  | MoveTo (pt : Point2D F32)
  | QuadraticCurveTo (cp pt : Point2D F32)
  | Rect (rect : Rect F32)
  | RestoreContext
  | SaveContext
  | StrokeRect (rect : Rect F32) (style : FillOrStrokeStyle)
  | Stroke (style : FillOrStrokeStyle)
  | SetLineWidth (width : F32)
  | SetLineCap (cap : LineCapStyle)
  | SetLineJoin (join : LineJoinStyle)
  | SetMiterLimit (limit : F32)
  | SetGlobalAlpha (alpha : F32)
  | SetGlobalComposition (op : CompositionOrBlending)
  | SetTransform (matrix : Transform2D F32)
  | SetShadowOffsetX (value : F64)
  | SetShadowOffsetY (value : F64)
  | SetShadowBlur (value : F64)
  | SetShadowColor (color : RGBA)
  | SetFont (font_style : FontStyleStruct)
  | SetTextAlign (text_align : TextAlign)
  | SetTextBaseline (text_baseline : TextBaseline)
  | Recreate (size : Size2D Nat)
deriving DecidableEq

/-- The raster surface collaborator (`CanvasData`, from `canvas_data.rs`,
not among the sources): the exact set of operations the actor code
invokes on it, over an arbitrary private state type `σ`.  Mutating
`&mut self` methods become `σ → σ`; observers return their value and
leave the state unchanged, which is how the actor loop treats them (the
same `canvas` binding continues to the next iteration). -/
structure RasterSurface (σ : Type) where
  set_fill_style : FillOrStrokeStyle → σ → σ
  set_stroke_style : FillOrStrokeStyle → σ → σ
  fill_text : String → F64 → F64 → Option F64 → Bool → σ → σ
  fill_rect : Rect F32 → σ → σ
  stroke_rect : Rect F32 → σ → σ
  clear_rect : Rect F32 → σ → σ
  begin_path : σ → σ
  close_path : σ → σ
  fill : σ → σ
  stroke : σ → σ
  clip : σ → σ
  draw_image : List Nat → Size2D F64 → Rect F64 → Rect F64 → Bool → σ → σ
  move_to : Point2D F32 → σ → σ
  line_to : Point2D F32 → σ → σ
  rect : Rect F32 → σ → σ
  quadratic_curve_to : Point2D F32 → Point2D F32 → σ → σ
  bezier_curve_to : Point2D F32 → Point2D F32 → Point2D F32 → σ → σ
  arc : Point2D F32 → F32 → F32 → F32 → Bool → σ → σ
  arc_to : Point2D F32 → Point2D F32 → F32 → σ → σ
  ellipse : Point2D F32 → F32 → F32 → F32 → F32 → F32 → Bool → σ → σ
  restore_context_state : σ → σ
  save_context_state : σ → σ
  set_line_width : F32 → σ → σ
  set_line_cap : LineCapStyle → σ → σ
  set_line_join : LineJoinStyle → σ → σ
  set_miter_limit : F32 → σ → σ
  set_transform : Transform2D F32 → σ → σ
  set_global_alpha : F32 → σ → σ
  set_global_composition : CompositionOrBlending → σ → σ
  set_shadow_offset_x : F64 → σ → σ
  set_shadow_offset_y : F64 → σ → σ
  set_shadow_blur : F64 → σ → σ
  set_shadow_color : RGBA → σ → σ
  set_font : FontStyleStruct → σ → σ
  set_text_align : TextAlign → σ → σ
  set_text_baseline : TextBaseline → σ → σ
  recreate : Size2D Nat → σ → σ
  get_transform : σ → Transform2D F32
  read_pixels : Rect Nat → Size2D Nat → σ → List Nat
  put_image_data : List Nat → Rect Nat → σ → σ
  is_point_in_path_bool : F64 → F64 → FillRule → σ → Bool
  get_data : σ → Option CanvasImageData
  get_pixels : σ → List Nat

/-- `canvas_session::handle_canvas_message`: dispatch one `CanvasMessage`
to the raster surface.  In the `DrawImage` arm, `imagedata.map_or_else`
supplies a zero-filled buffer of `width as usize * height as usize * 4`
bytes when the payload is `None`, and the bytes themselves otherwise. -/
def handle_canvas_message {σ : Type} (R : RasterSurface σ) (canvas : σ) :
    CanvasMessage → σ
  | .FillText text x y max_width style is_rtl =>
      R.fill_text text x y max_width is_rtl (R.set_fill_style style canvas)
  | .FillRect rect style =>
      R.fill_rect rect (R.set_fill_style style canvas)
  | .StrokeRect rect style =>
      R.stroke_rect rect (R.set_stroke_style style canvas)
  | .ClearRect rect => R.clear_rect rect canvas
  | .BeginPath => R.begin_path canvas
  | .ClosePath => R.close_path canvas
  | .Fill style => R.fill (R.set_fill_style style canvas)
  | .Stroke style => R.stroke (R.set_stroke_style style canvas)
  | .Clip => R.clip canvas
  | .DrawImage imagedata image_size dest_rect source_rect smoothing_enabled =>
      let data := match imagedata with
        | none => List.replicate (image_size.width.toNat * image_size.height.toNat * 4) 0
        | some bytes => bytes
      R.draw_image data image_size dest_rect source_rect smoothing_enabled canvas
  | .MoveTo pt => R.move_to pt canvas
  | .LineTo pt => R.line_to pt canvas
  | .Rect rect => R.rect rect canvas
  | .QuadraticCurveTo cp pt => R.quadratic_curve_to cp pt canvas
  | .BezierCurveTo cp1 cp2 pt => R.bezier_curve_to cp1 cp2 pt canvas
  | .Arc center radius start_angle end_angle ccw =>
      R.arc center radius start_angle end_angle ccw canvas
  | .ArcTo cp1 cp2 radius => R.arc_to cp1 cp2 radius canvas
  | .Ellipse center radius_x radius_y rotation start_angle end_angle ccw =>
      R.ellipse center radius_x radius_y rotation start_angle end_angle ccw canvas
  | .RestoreContext => R.restore_context_state canvas
  | .SaveContext => R.save_context_state canvas
  | .SetLineWidth width => R.set_line_width width canvas
  | .SetLineCap cap => R.set_line_cap cap canvas
  | .SetLineJoin join => R.set_line_join join canvas
  | .SetMiterLimit limit => R.set_miter_limit limit canvas
  | .SetTransform matrix => R.set_transform matrix canvas
  | .SetGlobalAlpha alpha => R.set_global_alpha alpha canvas
  | .SetGlobalComposition op => R.set_global_composition op canvas
  | .SetShadowOffsetX value => R.set_shadow_offset_x value canvas
  | .SetShadowOffsetY value => R.set_shadow_offset_y value canvas
  | .SetShadowBlur value => R.set_shadow_blur value canvas
  | .SetShadowColor color => R.set_shadow_color color canvas
  | .SetFont font_style => R.set_font font_style canvas
  | .SetTextAlign text_align => R.set_text_align text_align canvas
  | .SetTextBaseline text_baseline => R.set_text_baseline text_baseline canvas
  | .Recreate size => R.recreate size canvas

/-- One selection of the `CanvasOps` external choice offered by
`run_canvas_session`, together with the value(s) the selecting party
sends for that label.  The eight labels are those of `define_choice!`
in `canvas_session.rs`. -/
inductive CanvasEvent where
  | message (m : CanvasMessage)
  | messages (ms : List CanvasMessage)
  | getTransform
  | getImageData (dest_rect : Rect Nat) (canvas_size : Size2D Nat)
  | putImageData (rect : Rect Nat) (img : List Nat)
  | isPointInPath (x y : F64) (fill_rule : FillRule)
  | fromLayout
  | fromScript
deriving DecidableEq

/-- The value the actor sends back on a branch, if any (`Z` branches
reply nothing). -/
inductive CanvasReply where
  | noReply
  | transform (t : Transform2D F32)
  | bytes (b : List Nat)
  | boolean (b : Bool)
  | imageData (d : Option CanvasImageData)
deriving DecidableEq

/-- Whether, after serving one selection, the actor re-offers the menu
(`detach_shared_session (run_canvas_session canvas)`) or stops. -/
inductive LoopStatus where
  | serving
  | released
deriving DecidableEq

/-- Outcome of serving one selection in `run_canvas_session`. -/
structure StepResult (σ : Type) where
  canvas : σ
  reply : CanvasReply
  status : LoopStatus

/-- One iteration of `run_canvas_session`: the branch of `offer_choice!`
named by the event, translated arm by arm from `canvas_session.rs`.
Every branch ends in `detach_shared_session (run_canvas_session canvas)`,
modelled by `LoopStatus.serving`. -/
def canvas_step {σ : Type} (R : RasterSurface σ) (canvas : σ) :
    CanvasEvent → StepResult σ
  | .message m =>
      ⟨handle_canvas_message R canvas m, .noReply, .serving⟩
  | .messages ms =>
      ⟨ms.foldl (handle_canvas_message R) canvas, .noReply, .serving⟩
  | .getTransform =>
      ⟨canvas, .transform (R.get_transform canvas), .serving⟩
  | .getImageData dest_rect canvas_size =>
      ⟨canvas, .bytes (R.read_pixels dest_rect canvas_size canvas), .serving⟩
  | .putImageData rect img =>
      ⟨R.put_image_data img rect canvas, .noReply, .serving⟩
  | .isPointInPath x y fill_rule =>
      ⟨canvas, .boolean (R.is_point_in_path_bool x y fill_rule canvas), .serving⟩
  | .fromLayout =>
      ⟨canvas, .imageData (R.get_data canvas), .serving⟩
  | .fromScript =>
      ⟨canvas, .bytes (R.get_pixels canvas), .serving⟩

/-- `send_canvas_messages` (client side): acquire the shared channel,
`choose! Messages`, send the whole list, release.  Its observable effect
at the actor is exactly one `Messages` selection carrying the list, which
is what the model records. -/
def send_canvas_messages (messages : List CanvasMessage) : CanvasEvent :=
  CanvasEvent.messages messages

/-- Outcome of `CanvasSession::flush_messages` on one buffer state: the
buffer contents after the call, and the selection sent on the shared
channel, if any. -/
structure FlushResult where
  buffer : List CanvasMessage
  sent : Option CanvasEvent
deriving DecidableEq

/-- `CanvasSession::flush_messages`: under the buffer lock, if the buffer
is non-empty, `split_off(0)` empties it and the removed contents are sent
via `send_canvas_messages`; an empty buffer is left as it is and nothing
is sent. -/
def flush_messages (buffer : List CanvasMessage) : FlushResult :=
  if !buffer.isEmpty then
    { buffer := [], sent := some (send_canvas_messages buffer) }
  else
    { buffer := buffer, sent := none }

/-- Outcome of `CanvasSession::send_canvas_message` on one buffer state:
the buffer contents after the call, and the delay in milliseconds of the
flush task spawned, if one was spawned. -/
structure SubmitResult where
  buffer : List CanvasMessage
  scheduled_flush_delay_ms : Option Nat
deriving DecidableEq

/-- `CanvasSession::send_canvas_message`: under the buffer lock, record
whether the buffer was empty, push the message, and iff it was empty
spawn a task that sleeps `Duration::from_millis(10)` and then flushes. -/
def send_canvas_message (buffer : List CanvasMessage) (message : CanvasMessage) :
    SubmitResult :=
  let was_empty := buffer.isEmpty
  let buffer2 := buffer ++ [message]
  { buffer := buffer2,
    scheduled_flush_delay_ms := if was_empty then some 10 else none }

/-- `canvas_paint_thread::AntialiasMode`. -/
inductive AntialiasMode where
  | Default
  | None
deriving DecidableEq

/-- A shared channel to a canvas actor, identified by the raster-surface
state the actor it leads to serves. -/
structure SharedChannelModel (σ : Type) where
  serves : σ

/-- The context captured by the session factory: `CanvasData::new`
applied to the factory's `webrender_api` and `font_cache_thread` clones,
abstracted as a constructor from creation parameters to a fresh
raster-surface state. -/
structure CanvasContext (σ : Type) where
  new_canvas : Size2D Nat → AntialiasMode → σ

/-- Outcome of one iteration of `run_create_canvas_session`. -/
structure CreateStepResult (σ : Type) where
  reply : SharedChannelModel σ
  continues : Bool

/-- One iteration of `run_create_canvas_session`: receive `(size,
antialias)`, map the flag to an `AntialiasMode`, build a fresh
`CanvasData` through the context, start `run_canvas_session` over it as a
shared session, send that channel back, and detach into a recursive call
on the same context (`continues := true`). -/
def create_canvas_step {σ : Type} (ctx : CanvasContext σ)
    (param : Size2D Nat × Bool) : CreateStepResult σ :=
  let (size, antialias) := param
  let antialias_mode := if antialias then AntialiasMode.Default else AntialiasMode.None
  let canvas := ctx.new_canvas size antialias_mode
  { reply := ⟨canvas⟩, continues := true }

/-- The two shared channels `draw_image_in_other` touches. -/
inductive ChannelEnd where
  | source
  | target
deriving DecidableEq

/-- The labels of the `CanvasOps` choice, for recording which label a
client selects. -/
inductive CanvasLabel where
  | message
  | messages
  | getTransform
  | getImageData
  | putImageData
  | isPointInPath
  | fromLayout
  | fromScript
deriving DecidableEq

/-- One step of the cross-actor transfer choreography, as observed on the
two shared channels. -/
inductive TransferEvent where
  | acquire (c : ChannelEnd)
  | choose (c : ChannelEnd) (label : CanvasLabel)
  | sendRegion (c : ChannelEnd) (source_rect : Rect Nat) (image_size : Size2D Nat)
  | receiveBytes (c : ChannelEnd) (image : List Nat)
  | sendMessage (c : ChannelEnd) (m : CanvasMessage)
  | release (c : ChannelEnd)

/-- `canvas_session::draw_image_in_other`, as the ordered trace of channel
steps it performs.  `image` is the byte buffer the source actor's
`GetImageData` branch replies with (an input to the continuation in the
source code). -/
def draw_image_in_other (image : List Nat) (image_size : Size2D F64)
    (dest_rect source_rect : Rect F64) (smoothing : Bool) : List TransferEvent :=
  [ .acquire .source,
    .choose .source .getImageData,
    .sendRegion .source source_rect.to_u64 image_size.to_u64,
    .receiveBytes .source image,
    .release .source,
    .acquire .target,
    .choose .target .message,
    .sendMessage .target
      (CanvasMessage.DrawImage (some image) source_rect.size dest_rect source_rect smoothing),
    .release .target ]

/-- Whether channel `c` is held after processing one more trace event,
given whether it was held before. -/
def holdsStep (c : ChannelEnd) (held : Bool) : TransferEvent → Bool
  | .acquire d => if d = c then true else held
  | .release d => if d = c then false else held
  | _ => held

/-- Whether channel `c` is held after the whole trace `t` (initially no
channel is held). -/
def holdsAfter (c : ChannelEnd) (t : List TransferEvent) : Bool :=
  t.foldl (holdsStep c) false

/-- `true` iff after no prefix of `t` are both channels held at once. -/
def neverBothHeld (t : List TransferEvent) : Bool :=
  (List.range (t.length + 1)).all fun i =>
    !(holdsAfter .source (t.take i) && holdsAfter .target (t.take i))

/-- Modelled from the spec: `CanvasData::get_data`, the raster surface's
"snapshot for display" (its defining file `canvas_data.rs` is not among
the sources).  Per the spec the reply is an opaque handle usable by the
rendering pipeline, or none if the canvas has zero area; `image_key` is
the handle the surface would hand out. -/
def get_data_model (size : Size2D Nat) (image_key : CanvasImageData) :
    Option CanvasImageData :=
  if size.width = 0 ∨ size.height = 0 then none else some image_key

/-- Intersection of a requested rectangle with the surface bounds
`[0, width) × [0, height)`. -/
def clamp_rect (dest : Rect Nat) (bounds : Size2D Nat) : Rect Nat :=
  let x0 := min dest.origin.x bounds.width
  let y0 := min dest.origin.y bounds.height
  let x1 := min (dest.origin.x + dest.size.width) bounds.width
  let y1 := min (dest.origin.y + dest.size.height) bounds.height
  ⟨⟨x0, y0⟩, ⟨x1 - x0, y1 - y0⟩⟩

/-- Modelled from the spec: `CanvasData::read_pixels` (its defining file
`canvas_data.rs` is not among the sources).  Per the spec it reads raw
pixel bytes of the requested sub-region, clamping out-of-bounds
rectangles to the surface bounds and never reading outside allocated
memory; `pix x y` is the pixel the surface stores at in-bounds `(x, y)`. -/
def read_pixels_model (pix : Nat → Nat → Nat) (dest : Rect Nat)
    (canvas_size : Size2D Nat) : List Nat :=
  let r := clamp_rect dest canvas_size
  (List.range r.size.height).flatMap fun j =>
    (List.range r.size.width).map fun i => pix (r.origin.x + i) (r.origin.y + j)

/-!  Theorems settling the claims. -/

/-- Auxiliary: `List.flatMap` respects pointwise equality of the mapped
function on the list's members. -/
theorem list_flatMap_congr {α β : Type} {f g : α → List β} :
    ∀ l : List α, (∀ a ∈ l, f a = g a) → l.flatMap f = l.flatMap g := by
  intro l h
  induction l with
  | nil => rfl
  | cons a l ih =>
      simp only [List.flatMap_cons]
      rw [h a (List.mem_cons_self a l), ih fun b hb => h b (List.mem_cons_of_mem a hb)]

/-- Auxiliary: the clamped rectangle lies inside the surface bounds. -/
theorem clamp_rect_subset (dest : Rect Nat) (bounds : Size2D Nat) :
    (clamp_rect dest bounds).origin.x + (clamp_rect dest bounds).size.width
        ≤ bounds.width ∧
    (clamp_rect dest bounds).origin.y + (clamp_rect dest bounds).size.height
        ≤ bounds.height := by
  unfold clamp_rect
  dsimp
  omega

/-- Claim C1: handling one `Messages` (batched commands) selection
carrying a sequence of commands leaves the raster surface in exactly the
state reached by handling the same commands, in the same order, through
successive `Message` (single command) selections — for every sequence,
including the empty one. -/
theorem batched_messages_eq_individual {σ : Type} (R : RasterSurface σ)
    (canvas : σ) (ms : List CanvasMessage) :
    (canvas_step R canvas (.messages ms)).canvas
      = ms.foldl (fun s m => (canvas_step R s (.message m)).canvas) canvas := by
  rfl

/-- Claim C2: `flush_messages` leaves the pending buffer empty; a
non-empty buffer is sent, unchanged and in order, as exactly one
`Messages` selection via `send_canvas_messages`, and an empty buffer
sends nothing. -/
theorem flush_messages_spec (buffer : List CanvasMessage) :
    (flush_messages buffer).buffer = [] ∧
    (buffer ≠ [] →
      (flush_messages buffer).sent = some (CanvasEvent.messages buffer)) ∧
    (buffer = [] → (flush_messages buffer).sent = none) := by
  cases buffer <;> simp [flush_messages, send_canvas_messages]

/-- Witness for C2 at the concrete buffers `[BeginPath]` and `[]`. -/
theorem flush_messages_spec_witness :
    (flush_messages [CanvasMessage.BeginPath]).buffer = [] ∧
    (flush_messages [CanvasMessage.BeginPath]).sent
      = some (CanvasEvent.messages [CanvasMessage.BeginPath]) ∧
    (flush_messages []).sent = none :=
  ⟨(flush_messages_spec [CanvasMessage.BeginPath]).1,
   (flush_messages_spec [CanvasMessage.BeginPath]).2.1 (by simp),
   (flush_messages_spec []).2.2 rfl⟩

/-- Claim C3: `send_canvas_message` appends the command at the end of the
pending buffer, and schedules a flush task with a fixed 10-millisecond
delay exactly when the buffer was empty immediately before the append. -/
theorem send_canvas_message_spec (buffer : List CanvasMessage)
    (message : CanvasMessage) :
    (send_canvas_message buffer message).buffer = buffer ++ [message] ∧
    ((send_canvas_message buffer message).scheduled_flush_delay_ms = some 10 ↔
      buffer = []) := by
  cases buffer <;> simp [send_canvas_message]

/-- Claim C4: every branch of the offered menu ends by re-offering the
same menu — after serving any selection the actor is still `serving`, so
no menu branch terminates the actor loop. -/
theorem canvas_step_always_serving {σ : Type} (R : RasterSurface σ)
    (canvas : σ) (ev : CanvasEvent) :
    (canvas_step R canvas ev).status = .serving := by
  cases ev <;> rfl

/-- Claim C5: `draw_image_in_other` performs exactly the step sequence
acquire source, select `GetImageData`, send the region and size, receive
the bytes, release source, acquire target, select `Message`, send a
`DrawImage` command carrying the received bytes, release target — and
after no prefix of that trace are both channels held at once. -/
theorem draw_image_in_other_sequence (image : List Nat)
    (image_size : Size2D F64) (dest_rect source_rect : Rect F64)
    (smoothing : Bool) :
    draw_image_in_other image image_size dest_rect source_rect smoothing
      = [ .acquire .source,
          .choose .source .getImageData,
          .sendRegion .source source_rect.to_u64 image_size.to_u64,
          .receiveBytes .source image,
          .release .source,
          .acquire .target,
          .choose .target .message,
          .sendMessage .target
            (CanvasMessage.DrawImage (some image) source_rect.size
              dest_rect source_rect smoothing),
          .release .target ] ∧
    neverBothHeld
        (draw_image_in_other image image_size dest_rect source_rect smoothing)
      = true :=
  ⟨rfl, rfl⟩

/-- Claim C6: for every creation request `(size, antialias)`, the factory
builds a fresh surface of that size with antialias mode `Default` when
the flag is true and `None` when it is false, replies with a channel to
an actor serving exactly that fresh surface, and re-offers itself for the
next request. -/
theorem create_canvas_step_spec {σ : Type} (ctx : CanvasContext σ)
    (size : Size2D Nat) :
    (create_canvas_step ctx (size, true)).reply.serves
        = ctx.new_canvas size AntialiasMode.Default ∧
    (create_canvas_step ctx (size, false)).reply.serves
        = ctx.new_canvas size AntialiasMode.None ∧
    (∀ antialias : Bool,
      (create_canvas_step ctx (size, antialias)).continues = true) :=
  ⟨rfl, rfl, fun _ => rfl⟩

/-- Claim C7: the `FromLayout` (snapshot for display) branch takes no
input, replies with the surface's optional image handle, and keeps
serving; and the spec-modelled `get_data` replies none exactly when the
canvas has zero area. -/
theorem from_layout_snapshot_spec :
    (∀ (σ : Type) (R : RasterSurface σ) (canvas : σ),
      canvas_step R canvas .fromLayout
        = ⟨canvas, .imageData (R.get_data canvas), .serving⟩) ∧
    (∀ (size : Size2D Nat) (image_key : CanvasImageData),
      get_data_model size image_key = none ↔
        size.width = 0 ∨ size.height = 0) := by
  refine ⟨fun σ R canvas => rfl, fun size image_key => ?_⟩
  unfold get_data_model
  split <;> simp_all

/-- Claim C8: the `GetImageData` branch replies with the surface's
`read_pixels` result and keeps serving; the spec-modelled `read_pixels`
clamps the requested rectangle inside the surface bounds, and its reply
depends only on in-bounds pixels (so it never reads outside allocated
memory). -/
theorem get_image_data_clamped :
    (∀ (σ : Type) (R : RasterSurface σ) (canvas : σ) (dest_rect : Rect Nat)
        (canvas_size : Size2D Nat),
      canvas_step R canvas (.getImageData dest_rect canvas_size)
        = ⟨canvas, .bytes (R.read_pixels dest_rect canvas_size canvas),
            .serving⟩) ∧
    (∀ (dest : Rect Nat) (bounds : Size2D Nat),
      (clamp_rect dest bounds).origin.x + (clamp_rect dest bounds).size.width
          ≤ bounds.width ∧
      (clamp_rect dest bounds).origin.y + (clamp_rect dest bounds).size.height
          ≤ bounds.height) ∧
    (∀ (pix1 pix2 : Nat → Nat → Nat) (dest : Rect Nat) (bounds : Size2D Nat),
      (∀ x, x < bounds.width → ∀ y, y < bounds.height → pix1 x y = pix2 x y) →
      read_pixels_model pix1 dest bounds = read_pixels_model pix2 dest bounds) := by
  refine ⟨fun σ R canvas dest_rect canvas_size => rfl, clamp_rect_subset, ?_⟩
  intro pix1 pix2 dest bounds h
  unfold read_pixels_model
  have hsub := clamp_rect_subset dest bounds
  apply list_flatMap_congr
  intro j hj
  rw [List.mem_range] at hj
  apply List.map_congr_left
  intro i hi
  rw [List.mem_range] at hi
  exact h _ (by omega) _ (by omega)

/-- Witness for C8: two pixel stores that agree on the 2×2 in-bounds
region (but differ outside it) yield the same reply for an out-of-bounds
request. -/
theorem get_image_data_clamped_witness :
    (∀ x, x < 2 → ∀ y, y < 2 →
      (fun a b : Nat => a + b) x y
        = (fun a b : Nat => if a < 2 ∧ b < 2 then a + b else 99) x y) ∧
    read_pixels_model (fun a b : Nat => a + b)
        ⟨⟨1, 1⟩, ⟨5, 5⟩⟩ ⟨2, 2⟩
      = read_pixels_model (fun a b : Nat => if a < 2 ∧ b < 2 then a + b else 99)
          ⟨⟨1, 1⟩, ⟨5, 5⟩⟩ ⟨2, 2⟩ := by
  have h : ∀ x, x < 2 → ∀ y, y < 2 →
      (fun a b : Nat => a + b) x y
        = (fun a b : Nat => if a < 2 ∧ b < 2 then a + b else 99) x y := by
    decide
  exact ⟨h, get_image_data_clamped.2.2 _ _ _ _ h⟩

/-- Claim C9: in the `DrawImage` arm, a `None` pixel-data field is
replaced by a zero-filled buffer of `width * height * 4` bytes (the
truncating casts of the stated image size), and a `Some bytes` field is
passed to `draw_image` unmodified. -/
theorem draw_image_data_spec {σ : Type} (R : RasterSurface σ) (canvas : σ)
    (image_size : Size2D F64) (dest_rect source_rect : Rect F64)
    (smoothing : Bool) (bytes : List Nat) :
    handle_canvas_message R canvas
        (.DrawImage none image_size dest_rect source_rect smoothing)
      = R.draw_image
          (List.replicate (image_size.width.toNat * image_size.height.toNat * 4) 0)
          image_size dest_rect source_rect smoothing canvas ∧
    handle_canvas_message R canvas
        (.DrawImage (some bytes) image_size dest_rect source_rect smoothing)
      = R.draw_image bytes image_size dest_rect source_rect smoothing canvas :=
  ⟨rfl, rfl⟩

/-- Claim C10: `from_str` inverts `to_str` for every `CompositionStyle`
and every `BlendingStyle` value, and `from_str` rejects every string
outside the respective keyword set. -/
theorem composition_blending_roundtrip :
    (∀ v : CompositionStyle, CompositionStyle.from_str v.to_str = .ok v) ∧
    (∀ v : BlendingStyle, BlendingStyle.from_str v.to_str = .ok v) ∧
    (∀ s : String, s ∉ CompositionStyle.keywords →
      CompositionStyle.from_str s = .error ()) ∧
    (∀ s : String, s ∉ BlendingStyle.keywords →
      BlendingStyle.from_str s = .error ()) := by
  refine ⟨?_, ?_, ?_, ?_⟩
  · intro v; cases v <;> rfl
  · intro v; cases v <;> rfl
  · intro s h
    simp only [CompositionStyle.keywords, List.mem_cons, List.not_mem_nil,
      or_false, not_or] at h
    obtain ⟨h1, h2, h3, h4, h5, h6, h7, h8, h9, h10, h11, h12⟩ := h
    simp [CompositionStyle.from_str, h1, h2, h3, h4, h5, h6, h7, h8, h9,
      h10, h11, h12]
  · intro s h
    simp only [BlendingStyle.keywords, List.mem_cons, List.not_mem_nil,
      or_false, not_or] at h
    obtain ⟨h1, h2, h3, h4, h5, h6, h7, h8, h9, h10, h11, h12, h13, h14, h15⟩ := h
    simp [BlendingStyle.from_str, h1, h2, h3, h4, h5, h6, h7, h8, h9, h10,
      h11, h12, h13, h14, h15]

/-- Witness for C10 at `SrcIn` and at the non-keyword string
`"not-a-keyword"`. -/
theorem composition_blending_roundtrip_witness :
    CompositionStyle.from_str (CompositionStyle.to_str .SrcIn) = .ok .SrcIn ∧
    CompositionStyle.from_str "not-a-keyword" = .error () ∧
    BlendingStyle.from_str "not-a-keyword" = .error () := by
  have hc : "not-a-keyword" ∉ CompositionStyle.keywords := by decide
  have hb : "not-a-keyword" ∉ BlendingStyle.keywords := by decide
  exact ⟨composition_blending_roundtrip.1 .SrcIn,
    composition_blending_roundtrip.2.2.1 _ hc,
    composition_blending_roundtrip.2.2.2 _ hb⟩

end Servo
